import Mathlib

/-!
Verification development for the CloudWatch alarm notification Lambda
(`monitoring_cdk/lambda/notify.py`).

The Python code is shallowly embedded: pure helpers become Lean functions
over `String` (all strings handled by the code are ASCII, so `toLower`,
`length` and friends agree with Python's semantics), and each external
boto3 call is represented by an oracle parameter whose `Except` result
models either the API's return value or the exception it raised.
-/

namespace Notify

/-- A CloudWatch Logs event as returned by `filter_log_events`
(`notify.py` uses only the `timestamp` and `message` fields). -/
structure LogEvent where
  timestamp : Nat
  message : String
deriving DecidableEq, Repr

/-- The inline filter-pattern normalization performed in both
`get_logs_from_datapoint_period` (notify.py lines 501-505) and
`get_recent_error_logs` (lines 537-543):
`if filter_pattern == "[error]": search_pattern = "error" else: search_pattern = filter_pattern`. -/
def normalize_filter_pattern (filter_pattern : String) : String :=
  if filter_pattern = "[error]" then "error" else filter_pattern

/-- Stable insertion into a timestamp-descending list: a new element goes
before the first element whose timestamp it reaches, and after all
earlier elements with an equal timestamp. -/
def insertDesc (e : LogEvent) : List LogEvent → List LogEvent
  | [] => [e]
  | x :: xs => if x.timestamp ≤ e.timestamp then e :: x :: xs else x :: insertDesc e xs

/-- Stable sort by timestamp descending.  Python's
`events.sort(key=lambda x: x['timestamp'], reverse=True)` is a stable
sort by that key; any stable sort produces the same output list, and
this structural insertion sort is that stable reordering. -/
def sortEventsDesc : List LogEvent → List LogEvent
  | [] => []
  | x :: xs => insertDesc x (sortEventsDesc xs)

/-- `get_logs_from_datapoint_period` (notify.py lines 474-525), with the
`filter_log_events` call modelled by the oracle `query` mapping the
request's filter pattern to either the returned events or an exception.
The time-window arithmetic (ISO parse, +300 s) only shapes the request
and is not modelled; any exception inside the `try` block is the
oracle's `.error` case.  On success the code sorts the events by
timestamp descending and returns the first 10. -/
def get_logs_from_datapoint_period (filter_pattern : String)
    (query : String → Except String (List LogEvent)) : List LogEvent :=
  let search_pattern := normalize_filter_pattern filter_pattern
  match query search_pattern with
  | .error _ => []
  | .ok events => (sortEventsDesc events).take 10

/-- `get_recent_error_logs` (notify.py lines 527-557): same oracle
modelling; on success the code returns `response.get('events', [])`
unchanged (no sort, no truncation in code — the 10-entry cap is only the
`limit=10` request parameter), and on exception returns `[]`. -/
def get_recent_error_logs (filter_pattern : String)
    (query : String → Except String (List LogEvent)) : List LogEvent :=
  let search_pattern := normalize_filter_pattern filter_pattern
  match query search_pattern with
  | .error _ => []
  | .ok events => events

/-- A list of log events sorted by timestamp in descending order. -/
def sortedByTimestampDesc (l : List LogEvent) : Prop :=
  l.Pairwise (fun a b => b.timestamp ≤ a.timestamp)

/-- ASCII lowercasing of one character; agrees with Python `str.lower`
on the ASCII strings this code handles. -/
def lowerChar (c : Char) : Char :=
  if 'A' ≤ c && c ≤ 'Z' then Char.ofNat (c.toNat + 32) else c

/-- Python `str.lower`, as a map over the string's characters. -/
def str_lower (s : String) : String := String.mk (s.data.map lowerChar)

/-- Does the character list start with the character list `n`? -/
def startsWithChars : List Char → List Char → Bool
  | _, [] => true
  | [], _ :: _ => false
  | c :: cs, d :: ds => c == d && startsWithChars cs ds

/-- Python `str.startswith` (case-sensitive). -/
def starts_with (s p : String) : Bool := startsWithChars s.data p.data

/-- Python `str.endswith` (case-sensitive). -/
def ends_with (s suffix : String) : Bool :=
  startsWithChars s.data.reverse suffix.data.reverse

/-- Python slicing `s[:-n]` for `n > 0` (drops the last `n` characters;
yields the empty string when `n ≥ len(s)`). -/
def drop_right (s : String) (n : Nat) : String :=
  String.mk (s.data.take (s.data.length - n))

/-- Python slicing `s[n:]`. -/
def str_drop (s : String) (n : Nat) : String := String.mk (s.data.drop n)

/-- Does the character list contain `n` as a contiguous run?  Models
Python's substring test `n in l`. -/
def containsChars : List Char → List Char → Bool
  | [], n => startsWithChars [] n
  | c :: rest, n => startsWithChars (c :: rest) n || containsChars rest n

/-- Python's `needle in haystack` substring containment on strings. -/
def contains_substr (haystack needle : String) : Bool :=
  containsChars haystack.data needle.data

/-- Left-to-right, non-overlapping replacement of every occurrence of
`old` by `new`, as Python `str.replace` does for non-empty `old` (every
use in notify.py has non-empty `old`).  The fuel argument (instantiated
with the list length) only makes the recursion structural; each step
consumes at least one character. -/
def replaceFuel (old new : List Char) : Nat → List Char → List Char
  | 0, l => l
  | _ + 1, [] => []
  | fuel + 1, c :: rest =>
    if startsWithChars (c :: rest) old && !old.isEmpty then
      new ++ replaceFuel old new fuel (List.drop old.length (c :: rest))
    else c :: replaceFuel old new fuel rest

/-- Python `str.replace(old, new)` (replace every occurrence), for
non-empty `old`. -/
def str_replace (s old new : String) : String :=
  String.mk (replaceFuel old.data new.data s.data.length s.data)

/-- Split of a character list at every occurrence of the separator;
models Python `str.split(sep)` for a single-character `sep`. -/
def splitAux (sep : Char) : List Char → List Char → List (List Char)
  | [], acc => [acc.reverse]
  | c :: rest, acc =>
    if c == sep then acc.reverse :: splitAux sep rest []
    else splitAux sep rest (c :: acc)

/-- Python `s.split("-")`-style split on one separator character. -/
def split_on_char (s : String) (sep : Char) : List String :=
  (splitAux sep s.data []).map String.mk

/-- Severity suffixes checked, in order, by
`infer_log_group_name_from_alarm_name` (notify.py line 229) and by the
inline fallback in `process_alarm_event` (line 122). -/
def severity_suffixes : List String :=
  ["-Error", "-Warning", "-Critical", "-Info", "-Debug", "-Alert"]

/-- First half of `infer_log_group_name_from_alarm_name` (notify.py lines
226-227): `if base.endswith("-Alarm"): base = base[:-len("-Alarm")]`.
Note `str.endswith` is case-sensitive. -/
def strip_alarm_suffix (base : String) : String :=
  if ends_with base "-Alarm" then drop_right base 6 else base

/-- Second half of `infer_log_group_name_from_alarm_name` (notify.py lines
229-233): the first severity suffix matching the end of `base`
case-insensitively (via `base.lower().endswith(suf.lower())`) is removed;
the loop `break`s after the first hit, which is `List.find?`. -/
def strip_severity_suffix (base : String) : String :=
  match severity_suffixes.find? (fun suf => ends_with (str_lower base) (str_lower suf)) with
  | some suf => drop_right base suf.data.length
  | none => base

/-- `infer_log_group_name_from_alarm_name` (notify.py lines 217-235).
The inline fallback in `process_alarm_event` (lines 119-125) performs the
identical computation. -/
def infer_log_group_name_from_alarm_name (alarm_name : String) : String :=
  strip_severity_suffix (strip_alarm_suffix alarm_name)

/-- `infer_filter_pattern_from_log_group_name` (notify.py lines 320-338):
suffix checks on the lowercased name first (new naming rule), then legacy
substring containment checks, else the default `"ERROR"`. -/
def infer_filter_pattern_from_log_group_name (log_group_name : String) : String :=
  let log_group_lower := str_lower log_group_name
  if ends_with log_group_lower "-messages" then "[error]"
  else if ends_with log_group_lower "-app" then "ERROR"
  else if contains_substr log_group_lower "log-messages" then "[error]"
  else if contains_substr log_group_lower "log-app" then "ERROR"
  else "ERROR"

/-- The twelve digit characters captured by the regex
`\((\d{2}/\d{2}/\d{2} \d{2}:\d{2}:\d{2})\)` at a match site, in source
order: day `d1 d2`, month `m1 m2`, two-digit year `y1 y2`, hour `h1 h2`,
minute `n1 n2`, second `s1 s2`.  Holding the digits separately is the
same information as the captured group string "DD/MM/YY HH:MM:SS"
together with the `split(' ')` / `split('/')` decomposition the code
performs on it. -/
structure RawTimestamp where
  d1 : Char
  d2 : Char
  m1 : Char
  m2 : Char
  y1 : Char
  y2 : Char
  h1 : Char
  h2 : Char
  n1 : Char
  n2 : Char
  s1 : Char
  s2 : Char
deriving DecidableEq, Repr

/-- Attempt to match the fixed-shape pattern
`\((\d{2}/\d{2}/\d{2} \d{2}:\d{2}:\d{2})\)` at the head of the character
list.  `\d` is modelled as an ASCII digit (the reason strings produced by
CloudWatch are ASCII). -/
def match_timestamp_at (l : List Char) : Option RawTimestamp :=
  match l with
  | '(' :: d1 :: d2 :: '/' :: m1 :: m2 :: '/' :: y1 :: y2 :: ' ' ::
      h1 :: h2 :: ':' :: n1 :: n2 :: ':' :: s1 :: s2 :: ')' :: _ =>
    if d1.isDigit && d2.isDigit && m1.isDigit && m2.isDigit && y1.isDigit && y2.isDigit
        && h1.isDigit && h2.isDigit && n1.isDigit && n2.isDigit && s1.isDigit && s2.isDigit then
      some ⟨d1, d2, m1, m2, y1, y2, h1, h2, n1, n2, s1, s2⟩
    else none
  | _ => none

/-- `re.search` of the pattern: the leftmost position whose tail matches,
scanning the string left to right. -/
def find_timestamp_match : List Char → Option RawTimestamp
  | [] => none
  | c :: rest =>
    match match_timestamp_at (c :: rest) with
    | some r => some r
    | none => find_timestamp_match rest

/-- Numeric value of a two-ASCII-digit pair, as Python `int` parses the
two-character slices. -/
def two_digit (a b : Char) : Nat := (a.toNat - 48) * 10 + (b.toNat - 48)

/-- Gregorian leap-year rule applied by Python's `datetime`. -/
def is_leap_year (y : Nat) : Bool := y % 4 == 0 && (y % 100 != 0 || y % 400 == 0)

/-- Days in a month, as validated by `datetime.strptime`. -/
def days_in_month (y m : Nat) : Nat :=
  if m == 2 then (if is_leap_year y then 29 else 28)
  else if m == 4 || m == 6 || m == 9 || m == 11 then 30
  else 31

/-- The century rule of notify.py lines 451-454: two-digit years 00-50
map to 20xx, 51-99 to 19xx. -/
def century_year (yy : Nat) : Nat := if yy ≤ 50 then 2000 + yy else 1900 + yy

/-- Validity check performed by
`datetime.strptime(corrected_timestamp, "%Y/%m/%d %H:%M:%S")`
(notify.py line 459): month 1-12, day within the month, hour ≤ 23,
minute ≤ 59, second ≤ 59; `strptime` raises `ValueError` otherwise,
which the surrounding `except` turns into `None`. -/
def valid_datetime (r : RawTimestamp) : Bool :=
  let year := century_year (two_digit r.y1 r.y2)
  let month := two_digit r.m1 r.m2
  let day := two_digit r.d1 r.d2
  1 ≤ month && month ≤ 12 && 1 ≤ day && day ≤ days_in_month year month
    && two_digit r.h1 r.h2 ≤ 23 && two_digit r.n1 r.n2 ≤ 59 && two_digit r.s1 r.s2 ≤ 59

/-- The ISO string produced by
`dt.strftime("%Y-%m-%dT%H:%M:%S.000Z")` (notify.py line 460).  Since every
parsed component came from exactly two ASCII digits, the zero-padded
re-rendering equals the original digit pairs, with the century prefix
chosen by the rule of lines 451-454. -/
def iso_of (r : RawTimestamp) : String :=
  let century := if two_digit r.y1 r.y2 ≤ 50 then "20" else "19"
  century ++ String.mk [r.y1, r.y2, '-', r.m1, r.m2, '-', r.d1, r.d2, 'T',
    r.h1, r.h2, ':', r.n1, r.n2, ':', r.s1, r.s2] ++ ".000Z"

/-- `extract_datapoint_timestamp_from_reason` (notify.py lines 419-472):
empty reason returns `None` (`if not state_reason`); otherwise the first
regex match is reassembled as `YYYY/MM/DD HH:MM:SS` with the century
rule, parsed by `strptime` (validity check), and re-rendered as an ISO
instant; no match, or a `strptime` failure caught by the `except`
(indeed any exception in the `try`), yields `None`.  The Lean function
is total: every outcome of the Python function, including the exception
path, is a returned value. -/
def extract_datapoint_timestamp_from_reason (state_reason : String) : Option String :=
  if state_reason = "" then none
  else
    match find_timestamp_match state_reason.data with
    | none => none
    | some r => if valid_datetime r then some (iso_of r) else none

/-- `generate_display_name` (notify.py lines 376-385).  The guarded
`base.replace("LS-AWSLAB-", "", 1)` removes the first occurrence, which
under the `startswith` guard is the 10-character prefix. -/
def generate_display_name (log_group_name : String) : String :=
  let base :=
    if starts_with log_group_name "LS-AWSLAB-" then str_drop log_group_name 10
    else log_group_name
  if ends_with base "-Log-messages" then str_replace base "-Log-messages" "-Messages"
  else if ends_with base "-Log-app" then str_replace base "-Log-app" "-App"
  else base

/-- `generate_description` (notify.py lines 388-417): pick a log-type
label from the lowercased name, strip every `"LS-AWSLAB-"` occurrence
(unguarded `replace`), split on `"-"`, and join the first two segments as
the instance name when there are at least two. -/
def generate_description (log_group_name : String) : String :=
  let log_group_lower := str_lower log_group_name
  let log_type :=
    if ends_with log_group_lower "-messages" then "システムメッセージ"
    else if ends_with log_group_lower "-app" then "アプリケーション"
    else if contains_substr log_group_lower "log-messages" then "システムメッセージ"
    else if contains_substr log_group_lower "log-app" then "アプリケーション"
    else "アプリケーション"
  let base := str_replace log_group_name "LS-AWSLAB-" ""
  let parts := split_on_char base '-'
  let instance_name :=
    if 2 ≤ parts.length then parts.getD 0 "" ++ "-" ++ parts.getD 1 ""
    else base
  instance_name ++ "の" ++ log_type ++ "ログ"

/-- The configuration dictionary returned by
`get_log_group_info_from_alarm` (notify.py lines 206-211). -/
structure LogGroupInfo where
  log_group_name : String
  filter_pattern : String
  display_name : String
  description : String
deriving DecidableEq, Repr

/-- The external world of one invocation: the environment variable and
one oracle per boto3 interaction that `process_alarm_event` performs.
`resolve` stands for the whole of `get_log_group_info_from_alarm`
(describe_alarms, describe_log_groups, describe_metric_filters);
`query_datapoint` / `query_recent` are the `filter_log_events` calls of
the two fetch variants, keyed by the request's filter pattern; `publish`
is the outcome of `sns_client.publish` inside `send_notification`, which
re-raises on failure. -/
structure Env where
  email_sns_topic_arn : Option String
  resolve : String → Except String LogGroupInfo
  query_datapoint : String → Except String (List LogEvent)
  query_recent : String → Except String (List LogEvent)
  publish : Except String Unit

/-- The observable external steps taken while processing one alarm
event: a resolution attempt, one log fetch (datapoint-window or
recent-hours), and a publish to the e-mail topic. -/
inductive Action where
  | resolveInfo (alarmName : String)
  | fetchDatapoint (logGroup filterPattern timestamp : String)
  | fetchRecent (logGroup filterPattern : String)
  | publish (topicArn : String)
deriving DecidableEq, Repr

/-- The two accepted alarm payload shapes of `process_alarm_event`
(notify.py lines 78-97): the SNS CloudWatch form keyed by `AlarmName`,
and the direct form keyed by `alarmData`; anything else raises
`ValueError("Unknown alarm event format")`.  The `.get(...)` defaults
are folded into the field values. -/
inductive AlarmData where
  | standard (alarmName alarmDescription newStateValue newStateReason
      stateChangeTime oldStateValue alarmArn : String)
  | direct (alarmName alarmDescription newState reason timestamp : String)
  | unknown
deriving DecidableEq, Repr

/-- New-state value carried by the payload (`NewStateValue` /
`alarmData.state.value`); `.unknown` has none. -/
def AlarmData.stateValue : AlarmData → Option String
  | .standard _ _ ns _ _ _ _ => some ns
  | .direct _ _ ns _ _ => some ns
  | .unknown => none

/-- The body of `process_alarm_event` from line 102 on (`if new_state ==
'ALARM'`), returning the external actions taken in order plus the
exception that escaped the function, if any.  On a non-ALARM state the
body is skipped entirely.  On ALARM: the resolution attempt (whose
failure is caught at line 116 and replaced by the inline name-inference
fallback of lines 119-129), the timestamp extraction, the choice of
fetch variant (both variants swallow their own backend errors), e-mail
content generation (pure string formatting, not modelled), and the
publish, whose failure propagates out of the function. -/
def processCore (env : Env) (topic alarm_name new_state reason : String) :
    List Action × Option String :=
  if new_state = "ALARM" then
    let info :=
      match env.resolve alarm_name with
      | .ok i => i
      | .error _ =>
        let base := infer_log_group_name_from_alarm_name alarm_name
        { log_group_name := base
          filter_pattern := infer_filter_pattern_from_log_group_name base
          display_name := generate_display_name base
          description := generate_description base }
    let fetchAct :=
      match extract_datapoint_timestamp_from_reason reason with
      | some ts => Action.fetchDatapoint info.log_group_name info.filter_pattern ts
      | none => Action.fetchRecent info.log_group_name info.filter_pattern
    match env.publish with
    | .ok _ => ([.resolveInfo alarm_name, fetchAct, .publish topic], none)
    | .error e => ([.resolveInfo alarm_name, fetchAct, .publish topic], some e)
  else ([], none)

/-- `process_alarm_event` (notify.py lines 66-167): re-check of the
environment variable, dispatch on the payload shape, then the
state-guarded body. -/
def process_alarm_event (env : Env) (alarm_data : AlarmData) :
    List Action × Option String :=
  match env.email_sns_topic_arn with
  | none => ([], some "EMAIL_SNS_TOPIC_ARN environment variable not set")
  | some topic =>
    match alarm_data with
    | .standard an _ ns reason _ _ _ => processCore env topic an ns reason
    | .direct an _ ns reason _ => processCore env topic an ns reason
    | .unknown => ([], some "Unknown alarm event format")

/-- One element of the `Records` array: its `EventSource` string and the
outcome of `json.loads(record['Sns']['Message'])` (an `.error` models a
missing key or malformed JSON, which raises). -/
structure SnsRecord where
  eventSource : String
  message : Except String AlarmData

/-- The two inbound envelope shapes accepted by `lambda_handler`
(notify.py line 26): a `Records` array, or the alarm payload directly. -/
inductive Event where
  | records (rs : List SnsRecord)
  | direct (d : AlarmData)

/-- The `for` loop over `event['Records']` (notify.py lines 29-39):
records are visited in array order; a record whose `EventSource` is not
`"aws:sns"` is only logged and skipped; for an SNS record the message is
parsed and handed to `process_alarm_event`; the first exception
propagates out of the loop, abandoning all later records.  Returns the
actions performed, in order, and the escaping exception if any. -/
def processRecords (env : Env) : List SnsRecord → List Action × Option String
  | [] => ([], none)
  | r :: rest =>
    if r.eventSource = "aws:sns" then
      match r.message with
      | .error e => ([], some e)
      | .ok msg =>
        match process_alarm_event env msg with
        | (acts, some e) => (acts, some e)
        | (acts, none) =>
          let tail := processRecords env rest
          (acts ++ tail.1, tail.2)
    else processRecords env rest

/-- `lambda_handler` (notify.py lines 8-64): the missing environment
variable raises before any record is touched; otherwise the envelope is
dispatched; any exception is caught by the outer handler, which returns
status 500, while a clean run returns status 200.  The second component
is the trace of external actions performed. -/
def lambda_handler (env : Env) (event : Event) : Nat × List Action :=
  match env.email_sns_topic_arn with
  | none => (500, [])
  | some _ =>
    match event with
    | .records rs =>
      match processRecords env rs with
      | (acts, none) => (200, acts)
      | (acts, some _) => (500, acts)
    | .direct d =>
      match process_alarm_event env d with
      | (acts, none) => (200, acts)
      | (acts, some _) => (500, acts)

/-- A sample external world used to instantiate universally quantified
statements: resolution unavailable, empty log backends, publish
succeeding. -/
def sampleEnv : Env where
  email_sns_topic_arn := some "arn:topic"
  resolve := fun _ => .error "describe_alarms unavailable"
  query_datapoint := fun _ => .ok []
  query_recent := fun _ => .ok []
  publish := .ok ()

/-- A wrapped record whose SNS message fails to parse as JSON. -/
def badRecord : SnsRecord where
  eventSource := "aws:sns"
  message := .error "bad json"

lemma mem_insertDesc {y e : LogEvent} {l : List LogEvent}
    (h : y ∈ insertDesc e l) : y = e ∨ y ∈ l := by
  induction l with
  | nil => simp only [insertDesc, List.mem_singleton] at h; exact Or.inl h
  | cons x xs ih =>
    by_cases hc : x.timestamp ≤ e.timestamp
    · simp only [insertDesc, if_pos hc, List.mem_cons] at h
      rcases h with h | h | h
      · exact Or.inl h
      · exact Or.inr (by simp [h])
      · exact Or.inr (by simp [h])
    · simp only [insertDesc, if_neg hc, List.mem_cons] at h
      rcases h with h | h
      · exact Or.inr (by simp [h])
      · rcases ih h with h | h
        · exact Or.inl h
        · exact Or.inr (by simp [h])

lemma pairwise_insertDesc {e : LogEvent} {l : List LogEvent}
    (h : sortedByTimestampDesc l) : sortedByTimestampDesc (insertDesc e l) := by
  induction l with
  | nil => simp [insertDesc, sortedByTimestampDesc]
  | cons x xs ih =>
    rw [sortedByTimestampDesc, List.pairwise_cons] at h
    obtain ⟨hx, hxs⟩ := h
    by_cases hc : x.timestamp ≤ e.timestamp
    · rw [sortedByTimestampDesc]
      simp only [insertDesc, if_pos hc]
      rw [List.pairwise_cons]
      refine ⟨?_, ?_⟩
      · intro y hy
        rcases List.mem_cons.mp hy with rfl | hy
        · exact hc
        · exact le_trans (hx y hy) hc
      · rw [List.pairwise_cons]
        exact ⟨hx, hxs⟩
    · rw [sortedByTimestampDesc]
      simp only [insertDesc, if_neg hc]
      rw [List.pairwise_cons]
      refine ⟨?_, ih hxs⟩
      intro y hy
      rcases mem_insertDesc hy with rfl | hy
      · exact Nat.le_of_lt (Nat.lt_of_not_le hc)
      · exact hx y hy

lemma sorted_sortEventsDesc (l : List LogEvent) :
    sortedByTimestampDesc (sortEventsDesc l) := by
  induction l with
  | nil => simp [sortEventsDesc, sortedByTimestampDesc]
  | cons x xs ih => exact pairwise_insertDesc ih

/-- C2 counterexample: the recent-hours fallback fetch returns the
backend's events unchanged — neither sorted descending nor truncated to
10 — so the claim "both variants return at most 10 entries sorted by
timestamp descending for every backend result" is false on the code. -/
theorem c2_recent_fetch_counterexample :
    get_recent_error_logs "ERROR" (fun _ => .ok [⟨1, "a"⟩, ⟨2, "b"⟩]) = [⟨1, "a"⟩, ⟨2, "b"⟩]
    ∧ ¬ sortedByTimestampDesc [(⟨1, "a"⟩ : LogEvent), ⟨2, "b"⟩]
    ∧ (get_recent_error_logs "ERROR" (fun _ => .ok (List.replicate 11 ⟨0, "x"⟩))).length = 11 := by
  refine ⟨by decide, ?_, by decide⟩
  simp [sortedByTimestampDesc, List.pairwise_cons]

/-- C2 (amended): the datapoint-window fetch returns at most 10 entries
sorted by timestamp descending for every backend result; the
recent-hours fallback returns the backend's event list unchanged on
success (its 10-entry cap lives only in the request's `limit`
parameter) and the empty list on backend failure. -/
theorem c2_fetch_variants_shape (fp : String)
    (q : String → Except String (List LogEvent)) :
    (get_logs_from_datapoint_period fp q).length ≤ 10
    ∧ sortedByTimestampDesc (get_logs_from_datapoint_period fp q)
    ∧ (∀ events, q (normalize_filter_pattern fp) = .ok events →
        get_recent_error_logs fp q = events)
    ∧ (∀ e, q (normalize_filter_pattern fp) = .error e →
        get_recent_error_logs fp q = []) := by
  refine ⟨?_, ?_, ?_, ?_⟩
  · rw [get_logs_from_datapoint_period]
    cases q (normalize_filter_pattern fp) with
    | error e => simp
    | ok events => simp only []; exact List.length_take_le 10 (sortEventsDesc events)
  · rw [get_logs_from_datapoint_period]
    cases q (normalize_filter_pattern fp) with
    | error e => simp [sortedByTimestampDesc]
    | ok events =>
      exact List.Pairwise.sublist (List.take_sublist 10 _) (sorted_sortEventsDesc events)
  · intro events h
    rw [get_recent_error_logs]
    simp [h]
  · intro e h
    rw [get_recent_error_logs]
    simp [h]

/-- Witness for `c2_fetch_variants_shape` at a concrete backend. -/
theorem c2_fetch_variants_shape_witness :
    get_recent_error_logs "ERROR" (fun _ => .ok [⟨7, "m"⟩]) = [⟨7, "m"⟩] :=
  (c2_fetch_variants_shape "ERROR" (fun _ => .ok [⟨7, "m"⟩])).2.2.1 [⟨7, "m"⟩] rfl

/-- C3 counterexample: normalization is an exact-literal comparison —
it neither matches `[error]` case-insensitively nor strips surrounding
quotes, contradicting the claim that `"[ERROR]"` and `"\"[error]\""`
normalize to `"error"`. -/
theorem c3_normalize_counterexample :
    normalize_filter_pattern "[ERROR]" ≠ "error"
    ∧ normalize_filter_pattern "\"[error]\"" ≠ "error"
    ∧ normalize_filter_pattern "[ERROR]" = "[ERROR]"
    ∧ normalize_filter_pattern "\"[error]\"" = "\"[error]\"" := by
  refine ⟨by decide, by decide, by decide, by decide⟩

/-- C3 (amended): normalization maps exactly the literal string
`"[error]"` (case-sensitively, with no quote stripping, no whitespace
trimming, and no null handling — callers always pass a string) to
`"error"`, and passes every other string through unchanged. -/
theorem c3_normalize_exact_literal (x : String) :
    normalize_filter_pattern "[error]" = "error"
    ∧ (x ≠ "[error]" → normalize_filter_pattern x = x) := by
  refine ⟨by decide, ?_⟩
  intro h
  simp [normalize_filter_pattern, h]

/-- Witness for `c3_normalize_exact_literal` at a concrete input. -/
theorem c3_normalize_exact_literal_witness :
    normalize_filter_pattern "ERROR" = "ERROR" :=
  (c3_normalize_exact_literal "ERROR").2 (by decide)

/-- C6: in either fetch variant, a backend query failure is caught and
yields the empty list instead of propagating, so log retrieval cannot
abort the notification pipeline. -/
theorem c6_backend_failure_yields_empty (fp : String)
    (q : String → Except String (List LogEvent)) (e : String)
    (h : q (normalize_filter_pattern fp) = .error e) :
    get_logs_from_datapoint_period fp q = []
    ∧ get_recent_error_logs fp q = [] := by
  constructor
  · rw [get_logs_from_datapoint_period]
    simp [h]
  · rw [get_recent_error_logs]
    simp [h]

/-- Witness for `c6_backend_failure_yields_empty` at a concrete failing
backend. -/
theorem c6_backend_failure_yields_empty_witness :
    get_logs_from_datapoint_period "ERROR" (fun _ => .error "throttled") = []
    ∧ get_recent_error_logs "ERROR" (fun _ => .error "throttled") = [] :=
  c6_backend_failure_yields_empty "ERROR" (fun _ => .error "throttled") "throttled" rfl

/-- C9: the filter-pattern normalization is idempotent. -/
theorem c9_normalize_idempotent (x : String) :
    normalize_filter_pattern (normalize_filter_pattern x) = normalize_filter_pattern x := by
  by_cases h : x = "[error]"
  · subst h; decide
  · simp [normalize_filter_pattern, h]

/-- C1: whenever the reason string contains a parenthesized
`(DD/MM/YY HH:MM:SS)` match whose components form a valid calendar
date-time, extraction uses the first (leftmost) such match, applies the
century rule and the year/month/day reassembly, and returns the ISO
instant ending in `".000Z"`; the concrete conjuncts exhibit the century
rule on years 25, 50, 51, 99, the `".000Z"` suffix, and first-match
selection when two timestamps are present. -/
theorem c1_extraction_first_match_century_rule :
    (∀ (reason : String) (r : RawTimestamp),
      find_timestamp_match reason.data = some r → valid_datetime r = true →
      extract_datapoint_timestamp_from_reason reason = some (iso_of r))
    ∧ (∀ r : RawTimestamp, ends_with (iso_of r) ".000Z" = true)
    ∧ extract_datapoint_timestamp_from_reason
        "Threshold Crossed: 1 datapoint [2.0 (04/08/25 05:16:00)] was greater than..."
        = some "2025-08-04T05:16:00.000Z"
    ∧ extract_datapoint_timestamp_from_reason "(01/02/50 03:04:05)"
        = some "2050-02-01T03:04:05.000Z"
    ∧ extract_datapoint_timestamp_from_reason "(01/02/51 03:04:05)"
        = some "1951-02-01T03:04:05.000Z"
    ∧ extract_datapoint_timestamp_from_reason "(01/02/99 03:04:05)"
        = some "1999-02-01T03:04:05.000Z"
    ∧ extract_datapoint_timestamp_from_reason "(02/03/25 01:02:03) then (09/09/99 09:09:09)"
        = some "2025-03-02T01:02:03.000Z" := by
  refine ⟨?_, ?_, by decide, by decide, by decide, by decide, by decide⟩
  · intro reason r h hv
    by_cases he : reason = ""
    · rw [he] at h
      rw [show ("" : String).data = [] from rfl, find_timestamp_match] at h
      exact absurd h (by simp)
    · rw [extract_datapoint_timestamp_from_reason, if_neg he, h]
      simp [hv]
  · intro r
    rw [iso_of, ends_with]
    by_cases hy : two_digit r.y1 r.y2 ≤ 50 <;>
      simp [hy, startsWithChars]

/-- Witness for `c1_extraction_first_match_century_rule`: the general
conjunct applied at the documented example reason string. -/
theorem c1_extraction_witness :
    extract_datapoint_timestamp_from_reason "x (05/08/25 04:05:00) y"
      = some (iso_of ⟨'0', '5', '0', '8', '2', '5', '0', '4', '0', '5', '0', '0'⟩) :=
  c1_extraction_first_match_century_rule.1 "x (05/08/25 04:05:00) y"
    ⟨'0', '5', '0', '8', '2', '5', '0', '4', '0', '5', '0', '0'⟩ (by decide) (by decide)

/-- C5: extraction returns `none` both when no parenthesized
`(DD/MM/YY HH:MM:SS)` pattern occurs in the reason and when the matched
text is not a valid calendar date-time (the `strptime` failure caught by
the `except`); being a total Lean function returning an `Option`, it
models the Python function never letting an exception escape.  The
closed conjuncts show a no-match reason and a month-13 match. -/
theorem c5_extraction_absent_on_failure :
    (∀ reason : String, find_timestamp_match reason.data = none →
      extract_datapoint_timestamp_from_reason reason = none)
    ∧ (∀ (reason : String) (r : RawTimestamp),
        find_timestamp_match reason.data = some r → valid_datetime r = false →
        extract_datapoint_timestamp_from_reason reason = none)
    ∧ extract_datapoint_timestamp_from_reason
        "Threshold Crossed: 1 datapoint was greater than the threshold" = none
    ∧ extract_datapoint_timestamp_from_reason "(01/13/25 00:00:00)" = none := by
  refine ⟨?_, ?_, by decide, by decide⟩
  · intro reason h
    by_cases he : reason = ""
    · rw [extract_datapoint_timestamp_from_reason, if_pos he]
    · rw [extract_datapoint_timestamp_from_reason, if_neg he, h]
  · intro reason r h hv
    by_cases he : reason = ""
    · rw [extract_datapoint_timestamp_from_reason, if_pos he]
    · rw [extract_datapoint_timestamp_from_reason, if_neg he, h]
      simp [hv]

/-- Witness for `c5_extraction_absent_on_failure` at a concrete
no-match reason. -/
theorem c5_extraction_witness :
    extract_datapoint_timestamp_from_reason "no datapoint at all" = none :=
  c5_extraction_absent_on_failure.1 "no datapoint at all" (by decide)

/-- C4 counterexample: the trailing `"-Alarm"` strip uses Python's
case-sensitive `endswith`, so `"Foo-ALARM"` — which the claim's
case-insensitive reading would strip to `"Foo"` — passes through
verbatim. -/
theorem c4_alarm_name_counterexample :
    infer_log_group_name_from_alarm_name "Foo-ALARM" ≠ "Foo"
    ∧ infer_log_group_name_from_alarm_name "Foo-ALARM" = "Foo-ALARM" := by
  exact ⟨by decide, by decide⟩

/-- C4 (amended): the fallback strips a trailing exact-case `"-Alarm"`
suffix first, then a trailing severity suffix (error / warning /
critical / info / debug / alert) case-insensitively; a name ending in
neither recognized suffix is used verbatim; the two spec examples hold. -/
theorem c4_alarm_name_inference (name base : String) :
    infer_log_group_name_from_alarm_name "LS-AWSLAB-EC2-MTA01-Messages-Error-Alarm"
      = "LS-AWSLAB-EC2-MTA01-Messages"
    ∧ infer_log_group_name_from_alarm_name "Foo-Alarm" = "Foo"
    ∧ (ends_with name "-Alarm" = true →
        infer_log_group_name_from_alarm_name name = strip_severity_suffix (drop_right name 6))
    ∧ (ends_with name "-Alarm" = false →
        infer_log_group_name_from_alarm_name name = strip_severity_suffix name)
    ∧ ((∀ suf ∈ severity_suffixes, ends_with (str_lower base) (str_lower suf) = false) →
        strip_severity_suffix base = base) := by
  refine ⟨by decide, by decide, ?_, ?_, ?_⟩
  · intro h
    rw [infer_log_group_name_from_alarm_name, strip_alarm_suffix, if_pos h]
  · intro h
    rw [infer_log_group_name_from_alarm_name, strip_alarm_suffix, if_neg (by simp [h])]
  · intro h
    rw [strip_severity_suffix,
      List.find?_eq_none.mpr (by simp only [Bool.not_eq_true]; exact h)]

/-- Witness for `c4_alarm_name_inference` at a concrete alarm name. -/
theorem c4_alarm_name_inference_witness :
    infer_log_group_name_from_alarm_name "Bar-Alarm"
      = strip_severity_suffix (drop_right "Bar-Alarm" 6) :=
  (c4_alarm_name_inference "Bar-Alarm" "").2.2.1 (by decide)

/-- C8 counterexample: a name whose lowercase form merely contains
`"log-messages"` (without ending in `-messages` or `-app`) yields the
legacy bracketed token, not the claimed default `"ERROR"`. -/
theorem c8_filter_inference_counterexample :
    ends_with (str_lower "X-Log-messages-1") "-messages" = false
    ∧ ends_with (str_lower "X-Log-messages-1") "-app" = false
    ∧ infer_filter_pattern_from_log_group_name "X-Log-messages-1" = "[error]"
    ∧ infer_filter_pattern_from_log_group_name "X-Log-messages-1" ≠ "ERROR" := by
  exact ⟨by decide, by decide, by decide, by decide⟩

/-- C8 (amended): the default filter expression is chosen from the
lowercased identifier by, in order: a `-messages` suffix → `"[error]"`;
a `-app` suffix → `"ERROR"`; a contained `"log-messages"` → `"[error]"`
(legacy rule); a contained `"log-app"` → `"ERROR"` (legacy rule);
otherwise `"ERROR"`. -/
theorem c8_default_filter_inference (g : String) :
    (ends_with (str_lower g) "-messages" = true →
      infer_filter_pattern_from_log_group_name g = "[error]")
    ∧ (ends_with (str_lower g) "-messages" = false →
        ends_with (str_lower g) "-app" = true →
        infer_filter_pattern_from_log_group_name g = "ERROR")
    ∧ (ends_with (str_lower g) "-messages" = false →
        ends_with (str_lower g) "-app" = false →
        contains_substr (str_lower g) "log-messages" = true →
        infer_filter_pattern_from_log_group_name g = "[error]")
    ∧ (ends_with (str_lower g) "-messages" = false →
        ends_with (str_lower g) "-app" = false →
        contains_substr (str_lower g) "log-messages" = false →
        contains_substr (str_lower g) "log-app" = true →
        infer_filter_pattern_from_log_group_name g = "ERROR")
    ∧ (ends_with (str_lower g) "-messages" = false →
        ends_with (str_lower g) "-app" = false →
        contains_substr (str_lower g) "log-messages" = false →
        contains_substr (str_lower g) "log-app" = false →
        infer_filter_pattern_from_log_group_name g = "ERROR") := by
  refine ⟨?_, ?_, ?_, ?_, ?_⟩ <;>
    intros <;>
    simp_all [infer_filter_pattern_from_log_group_name]

/-- Witness for `c8_default_filter_inference` at a concrete identifier
ending in `-messages`. -/
theorem c8_default_filter_inference_witness :
    infer_filter_pattern_from_log_group_name "LS-AWSLAB-EC2-MTA01-Messages" = "[error]" :=
  (c8_default_filter_inference "LS-AWSLAB-EC2-MTA01-Messages").1 (by decide)

/-- C7: with the environment variable set, an alarm payload whose new
state value is anything other than exactly `"ALARM"` produces no
resolution attempt, no log fetch, and no publish (an empty action
trace), and the invocation — direct or SNS-wrapped — returns status
code 200. -/
theorem c7_non_alarm_state_no_op (env : Env)
    (topic an ad ns reason ts os arn : String)
    (henv : env.email_sns_topic_arn = some topic) (hns : ns ≠ "ALARM") :
    process_alarm_event env (.standard an ad ns reason ts os arn) = ([], none)
    ∧ lambda_handler env (.direct (.standard an ad ns reason ts os arn)) = (200, [])
    ∧ lambda_handler env
        (.records [⟨"aws:sns", .ok (.standard an ad ns reason ts os arn)⟩]) = (200, []) := by
  have hproc : process_alarm_event env (.standard an ad ns reason ts os arn) = ([], none) := by
    rw [process_alarm_event, henv]
    simp [processCore, hns]
  refine ⟨hproc, ?_, ?_⟩
  · rw [lambda_handler, henv]
    simp [hproc]
  · rw [lambda_handler, henv]
    simp [processRecords, hproc]

/-- Witness for `c7_non_alarm_state_no_op`: a concrete `OK`-state
payload in the sample environment. -/
theorem c7_non_alarm_state_no_op_witness :
    process_alarm_event sampleEnv (.standard "A" "" "OK" "reason" "t" "ALARM" "arn") = ([], none)
    ∧ lambda_handler sampleEnv (.direct (.standard "A" "" "OK" "reason" "t" "ALARM" "arn")) = (200, [])
    ∧ lambda_handler sampleEnv
        (.records [⟨"aws:sns", .ok (.standard "A" "" "OK" "reason" "t" "ALARM" "arn")⟩]) = (200, []) :=
  c7_non_alarm_state_no_op sampleEnv "arn:topic" "A" "" "OK" "reason" "t" "ALARM" "arn"
    rfl (by decide)

/-- C10: the dispatcher walks the `Records` array strictly in order —
a non-`aws:sns` record is skipped with no effect on the trace; a
successfully processed SNS record contributes its actions before those
of the remaining records; the first exception (a message that fails to
parse, or a processing failure) ends the walk with no later record
processed; and any failure makes the whole invocation return status
code 500, with no partial-success reporting. -/
theorem c10_dispatcher_order_skip_abort (env : Env) (r : SnsRecord)
    (rs : List SnsRecord) :
    (r.eventSource ≠ "aws:sns" → processRecords env (r :: rs) = processRecords env rs)
    ∧ (∀ e, r.eventSource = "aws:sns" → r.message = .error e →
        processRecords env (r :: rs) = ([], some e))
    ∧ (∀ msg acts, r.eventSource = "aws:sns" → r.message = .ok msg →
        process_alarm_event env msg = (acts, none) →
        processRecords env (r :: rs)
          = (acts ++ (processRecords env rs).1, (processRecords env rs).2))
    ∧ (∀ msg acts e, r.eventSource = "aws:sns" → r.message = .ok msg →
        process_alarm_event env msg = (acts, some e) →
        processRecords env (r :: rs) = (acts, some e))
    ∧ (∀ acts e topic, env.email_sns_topic_arn = some topic →
        processRecords env (r :: rs) = (acts, some e) →
        lambda_handler env (.records (r :: rs)) = (500, acts)) := by
  refine ⟨?_, ?_, ?_, ?_, ?_⟩
  · intro h
    rw [processRecords, if_neg h]
  · intro e hsrc hmsg
    rw [processRecords, if_pos hsrc, hmsg]
  · intro msg acts hsrc hmsg hproc
    rw [processRecords, if_pos hsrc, hmsg]
    simp [hproc]
  · intro msg acts e hsrc hmsg hproc
    rw [processRecords, if_pos hsrc, hmsg]
    simp [hproc]
  · intro acts e topic henv hrun
    rw [lambda_handler, henv, hrun]

/-- Witness for `c10_dispatcher_order_skip_abort`: a record with an
unparseable message aborts the batch and the invocation returns 500. -/
theorem c10_dispatcher_witness :
    processRecords sampleEnv [badRecord] = ([], some "bad json")
    ∧ lambda_handler sampleEnv (.records [badRecord]) = (500, []) :=
  ⟨(c10_dispatcher_order_skip_abort sampleEnv badRecord []).2.1 "bad json" rfl rfl,
    (c10_dispatcher_order_skip_abort sampleEnv badRecord []).2.2.2.2 [] "bad json" "arn:topic" rfl
      ((c10_dispatcher_order_skip_abort sampleEnv badRecord []).2.1 "bad json" rfl rfl)⟩

end Notify
